import Mathlib

/-!
# Verification of the fvdb GridBatch core (openvdb/fvdb)

A shallow embedding, in Lean 4, of the grid-batch indexing and metadata
engine of the `fvdb` subproject:

* `src/fvdb/src/detail/GridBatchImpl.h` — per-grid and per-batch metadata,
  the `indexInternal` slicing operation, negative-index resolution,
  coarse/fine transform derivation, accessors, per-element queries;
* `src/fvdb/src/detail/TorchDeviceBuffer.cpp` — the host/device byte-buffer
  lifecycle (`setDevice`, `toCpu`, `toCuda`);
* `src/fvdb/src/GridBatch.cpp` — the public enabled-voxel counting queries.

Modelling conventions:

* C++ `double` arithmetic on voxel sizes and origins is modelled with exact
  rationals (`ℚ`); the algebraic claims about transforms are statements about
  the ideal (real-number) semantics of those formulas.
* Machine integers (`int64_t`, `uint32_t`, `uint64_t`) are modelled as `ℤ`
  resp. `ℕ`; the quantities involved (counts, byte offsets) never approach
  the overflow boundary in the source's intended use.
* `TORCH_CHECK` failures are modelled as `Except.error (Err.checkError msg)`
  (c10::Error, the invalid-argument class) and `TORCH_CHECK_INDEX` failures
  as `Except.error (Err.indexError msg)` (c10::IndexError).  Interpolated
  parts of error messages are elided; the fixed message text is kept.
* Raw pointers into the shared nanovdb storage buffer are modelled by the
  byte offsets they are computed from; the tree found at a byte offset is
  modelled by a lookup function on the grid-handle model.
-/

/-- Error classes raised by the engine: `TORCH_CHECK_INDEX` raises a
c10::IndexError (`indexError`), `TORCH_CHECK` raises a c10::Error
(`checkError`, the invalid-argument class). -/
inductive Err where
  | indexError (msg : String)
  | checkError (msg : String)
deriving DecidableEq, Repr, Inhabited

/-- Model of `nanovdb::Vec3d`, a triple of doubles, modelled with exact rationals. -/
structure Vec3q where
  x : ℚ
  y : ℚ
  z : ℚ
deriving DecidableEq, Repr, Inhabited

instance : Add Vec3q := ⟨fun a b => ⟨a.x + b.x, a.y + b.y, a.z + b.z⟩⟩

instance : Sub Vec3q := ⟨fun a b => ⟨a.x - b.x, a.y - b.y, a.z - b.z⟩⟩

/-- Componentwise product, as in `nanovdb::Vec3d::operator*`. -/
instance : Mul Vec3q := ⟨fun a b => ⟨a.x * b.x, a.y * b.y, a.z * b.z⟩⟩

/-- Componentwise quotient, as in `nanovdb::Vec3d::operator/`. -/
instance : Div Vec3q := ⟨fun a b => ⟨a.x / b.x, a.y / b.y, a.z / b.z⟩⟩

/-- Scaling a `Vec3d` by a scalar (e.g. the `* 0.5` in the transform
derivations). -/
def Vec3q.scale (v : Vec3q) (c : ℚ) : Vec3q :=
  ⟨v.x * c, v.y * c, v.z * c⟩

/-- The constant vector `nanovdb::Vec3d(1.0)`. -/
def Vec3q.ones : Vec3q := ⟨1, 1, 1⟩

/-- Model of `nanovdb::Coord`, a triple of integer coordinates. -/
structure Coord where
  x : ℤ
  y : ℤ
  z : ℤ
deriving DecidableEq, Repr, Inhabited

instance : Add Coord := ⟨fun a b => ⟨a.x + b.x, a.y + b.y, a.z + b.z⟩⟩

/-- Model of `nanovdb::Coord::asVec3d()`. -/
def Coord.asVec3d (c : Coord) : Vec3q := ⟨(c.x : ℚ), (c.y : ℚ), (c.z : ℚ)⟩

/-- All three components strictly positive (the `TORCH_CHECK` condition on
coarsening/subdivision factors). -/
def Coord.allPos (c : Coord) : Prop := 0 < c.x ∧ 0 < c.y ∧ 0 < c.z

instance (c : Coord) : Decidable c.allPos := by
  unfold Coord.allPos; infer_instance

/-- Model of `nanovdb::CoordBBox`: an axis-aligned integer bounding box given by its
two corner coordinates (`mCoord[0]` and `mCoord[1]` in nanovdb). -/
structure CoordBBox where
  bmin : Coord
  bmax : Coord
deriving DecidableEq, Repr, Inhabited

/-- Componentwise minimum (`Coord::minComponent`). -/
def Coord.cmin (a b : Coord) : Coord := ⟨min a.x b.x, min a.y b.y, min a.z b.z⟩

/-- Componentwise maximum (`Coord::maxComponent`). -/
def Coord.cmax (a b : Coord) : Coord := ⟨max a.x b.x, max a.y b.y, max a.z b.z⟩

/-- Model of `nanovdb::CoordBBox::expand(bbox)`: enlarge to enclose `other`. -/
def CoordBBox.expand (a other : CoordBBox) : CoordBBox :=
  ⟨a.bmin.cmin other.bmin, a.bmax.cmax other.bmax⟩

/-- Model of `GridBatchImpl::fineVoxSizeAndOrigin` (GridBatchImpl.h:101-109), as a
function of the grid's voxel size and origin:
`w = voxelSize / subdivFactor`,
`tx = voxelOrigin - (subdivFactor - 1) * w * 0.5`,
guarded by `TORCH_CHECK(subdivFactor > 0 componentwise)`. -/
def fineVoxSizeAndOrigin (voxelSize voxelOrigin : Vec3q) (subdivFactor : Coord) :
    Except Err (Vec3q × Vec3q) :=
  if subdivFactor.allPos then
    let w : Vec3q := voxelSize / subdivFactor.asVec3d
    let tx : Vec3q := voxelOrigin - ((subdivFactor.asVec3d - Vec3q.ones) * w).scale (1/2)
    Except.ok (w, tx)
  else
    Except.error (Err.checkError "Subdivision factor must be greater than 0")

/-- Model of `GridBatchImpl::coarseVoxSizeAndOrigin` (GridBatchImpl.h:111-120), as a
function of the grid's voxel size and origin:
`w = branchingFactor * voxelSize`,
`tx = (branchingFactor - 1) * voxelSize * 0.5 + voxelOrigin`,
guarded by `TORCH_CHECK(branchingFactor > 0 componentwise)`. -/
def coarseVoxSizeAndOrigin (voxelSize voxelOrigin : Vec3q) (branchingFactor : Coord) :
    Except Err (Vec3q × Vec3q) :=
  if branchingFactor.allPos then
    let w : Vec3q := branchingFactor.asVec3d * voxelSize
    let tx : Vec3q :=
      ((branchingFactor.asVec3d - Vec3q.ones) * voxelSize).scale (1/2) + voxelOrigin
    Except.ok (w, tx)
  else
    Except.error (Err.checkError "Coarsening factor must be greater than 0")

/-- The coarsen-then-subdivide round trip with one and the same factor:
derive the coarse voxel size and origin, then derive the fine voxel size and
origin from the coarse result. -/
def coarsenThenSubdivide (voxelSize voxelOrigin : Vec3q) (factor : Coord) :
    Except Err (Vec3q × Vec3q) :=
  (coarseVoxSizeAndOrigin voxelSize voxelOrigin factor).bind fun p =>
    fineVoxSizeAndOrigin p.1 p.2 factor

/-- All three components strictly positive (valid voxel size). -/
def Vec3q.allPos (v : Vec3q) : Prop := 0 < v.x ∧ 0 < v.y ∧ 0 < v.z

instance (v : Vec3q) : Decidable v.allPos := by
  unfold Vec3q.allPos; infer_instance


/-- Model of `GridBatchImpl::GridMetadata` (GridBatchImpl.h:30-56): metadata about a
single grid in the batch.  The primal/dual transforms are stored in the
source as scale+translate pairs derived together from the voxel size and
origin (`setTransform`); since `voxelOrigin()` recovers the origin through
the inverse primal transform (spec section 4.2: `apply`/`applyInv` are exact
inverses), the pair is represented here by the voxel size and the recovered
origin. -/
structure GridMetadata where
  version : ℕ := 1
  mCumLeaves : ℤ := 0
  mCumVoxels : ℤ := 0
  mCumBytes : ℕ := 0
  mVoxelSize : Vec3q := ⟨1, 1, 1⟩
  mVoxelOrigin : Vec3q := ⟨0, 0, 0⟩
  mNumLeaves : ℕ := 0
  mNumVoxels : ℤ := 0
  mNumBytes : ℕ := 0
  mBBox : CoordBBox := default
deriving DecidableEq, Repr, Inhabited

/-- Model of `GridBatchImpl::GridBatchMetadata` (GridBatchImpl.h:59-82): metadata
about the whole batch, with the source's default member values. -/
structure GridBatchMetadata where
  version : ℕ := 1
  mTotalLeaves : ℤ := 0
  mTotalVoxels : ℤ := 0
  mMaxVoxels : ℤ := 0
  mMaxLeafCount : ℕ := 0
  mTotalBBox : CoordBBox := default
  mIsMutable : Bool := false
  mIsContiguous : Bool := true
deriving DecidableEq, Repr, Inhabited

/-- Model of `torch::DeviceType`, restricted to the cases the buffer code
distinguishes. -/
inductive DeviceType where
  | cpu
  | cuda
  | other
deriving DecidableEq, Repr, Inhabited

/-- Model of `torch::Device`: a device type plus a device index (`-1` when no index
is set, as in torch). -/
structure TorchDevice where
  dtype : DeviceType
  index : ℤ := -1
deriving DecidableEq, Repr, Inhabited

/-- Model of `torch::Device::has_index()`. -/
def TorchDevice.hasIndex (d : TorchDevice) : Bool := d.index != -1

/-- Model of `torch::Device::is_cpu()`. -/
def TorchDevice.isCpu (d : TorchDevice) : Bool := d.dtype == DeviceType.cpu

/-- Model of `torch::Device::is_cuda()`. -/
def TorchDevice.isCuda (d : TorchDevice) : Bool := d.dtype == DeviceType.cuda

/-- Model of the shared `nanovdb::GridHandle<TorchDeviceBuffer>` as seen by
the engine: the residency and emptiness of its buffer, the bounding box of
the tree stored at each byte offset of the buffer (modelling the pointer
arithmetic `basePtr + mCumBytes` of `Accessor::grid`), and whether the
host/device grid pointers (`grid<T>()` / `deviceGrid<T>()`) are non-null. -/
structure GridHandleModel where
  device : TorchDevice
  bufferIsEmpty : Bool
  treeBBoxAtOffset : ℕ → CoordBBox
  hasHostGridPtr : Bool := true
  hasDeviceGridPtr : Bool := false

/-- Model of `fvdb::detail::GridBatchImpl` (GridBatchImpl.h:27-587): the grid-batch
engine state.  `mListIndicesSize0` models `mListIndices.size(0)`; the
device-resident metadata mirror (`mDeviceGridMetadata`) and the derived
`mBatchOffsets` tensor are kept in sync from the host data by
`syncMetadataToDeviceIfCUDA` / `recomputeBatchOffsets` and carry no
independent state. -/
structure GridBatchImpl where
  mHostGridMetadata : List GridMetadata := []
  mBatchMetadata : GridBatchMetadata := {}
  mGridHdl : GridHandleModel
  mLeafBatchIndices : List ℤ := []
  mListIndicesSize0 : ℕ := 0

/-- Model of `GridBatchImpl::batchSize()`: the length of the host metadata array. -/
def GridBatchImpl.batchSize (B : GridBatchImpl) : ℤ :=
  (B.mHostGridMetadata.length : ℤ)

/-- Model of `GridBatchImpl::device()`: the device of the handle's buffer. -/
def GridBatchImpl.device (B : GridBatchImpl) : TorchDevice :=
  B.mGridHdl.device

/-- Model of `GridBatchImpl::isEmpty()`: whether the handle's buffer is empty. -/
def GridBatchImpl.isEmpty (B : GridBatchImpl) : Bool :=
  B.mGridHdl.bufferIsEmpty

/-- Model of `GridBatchImpl::isMutable()`. -/
def GridBatchImpl.isMutable (B : GridBatchImpl) : Bool :=
  B.mBatchMetadata.mIsMutable

/-- Model of `GridBatchImpl::isContiguous()`. -/
def GridBatchImpl.isContiguous (B : GridBatchImpl) : Bool :=
  B.mBatchMetadata.mIsContiguous

/-- Model of `GridBatchImpl::totalVoxels()`. -/
def GridBatchImpl.totalVoxels (B : GridBatchImpl) : ℤ :=
  B.mBatchMetadata.mTotalVoxels

/-- Model of `GridBatchImpl::totalLeaves()`. -/
def GridBatchImpl.totalLeaves (B : GridBatchImpl) : ℤ :=
  B.mBatchMetadata.mTotalLeaves

/-- Model of `GridBatchImpl::totalBBox()`. -/
def GridBatchImpl.totalBBox (B : GridBatchImpl) : CoordBBox :=
  B.mBatchMetadata.mTotalBBox

/-- Model of `GridBatchImpl::checkNonEmptyGrid()` (GridBatchImpl.h:521-524):
`TORCH_CHECK(!isEmpty(), "Empty grid")`. -/
def GridBatchImpl.checkNonEmptyGrid (B : GridBatchImpl) : Except Err Unit :=
  if B.isEmpty then Except.error (Err.checkError "Empty grid") else Except.ok ()

/-- Model of `GridBatchImpl::negativeToPositiveIndexWithRangecheck`
(GridBatchImpl.h:122-130): a negative batch index is shifted by the batch
size, then `TORCH_CHECK_INDEX` requires the result to lie in
`[0, batchSize())`. -/
def GridBatchImpl.negativeToPositiveIndexWithRangecheck (B : GridBatchImpl) (bi : ℤ) :
    Except Err ℤ :=
  let bi2 : ℤ := if bi < 0 then bi + B.batchSize else bi
  if 0 ≤ bi2 ∧ bi2 < B.batchSize then
    Except.ok bi2
  else
    Except.error (Err.indexError "Batch index is out of range for grid batch")

/-- The host metadata record at a (resolved, in-range) batch index. -/
def GridBatchImpl.metaAt (B : GridBatchImpl) (bi : ℤ) : GridMetadata :=
  B.mHostGridMetadata.getD bi.toNat default

/-- Model of `GridBatchImpl::numLeaves(bi)` (GridBatchImpl.h:430-434). -/
def GridBatchImpl.numLeaves (B : GridBatchImpl) (bi : ℤ) : Except Err ℕ :=
  (B.negativeToPositiveIndexWithRangecheck bi).bind fun bi2 =>
    Except.ok (B.metaAt bi2).mNumLeaves

/-- Model of `GridBatchImpl::numVoxels(bi)` (GridBatchImpl.h:436-440). -/
def GridBatchImpl.numVoxels (B : GridBatchImpl) (bi : ℤ) : Except Err ℤ :=
  (B.negativeToPositiveIndexWithRangecheck bi).bind fun bi2 =>
    Except.ok (B.metaAt bi2).mNumVoxels

/-- Model of `GridBatchImpl::cumVoxels(bi)` (GridBatchImpl.h:442-446). -/
def GridBatchImpl.cumVoxels (B : GridBatchImpl) (bi : ℤ) : Except Err ℤ :=
  (B.negativeToPositiveIndexWithRangecheck bi).bind fun bi2 =>
    Except.ok (B.metaAt bi2).mCumVoxels

/-- Model of `GridBatchImpl::bbox(bi)` (GridBatchImpl.h:488-493): checks the grid is
non-empty, then resolves the index and reads the element's bounding box. -/
def GridBatchImpl.bbox (B : GridBatchImpl) (bi : ℤ) : Except Err CoordBBox :=
  (B.checkNonEmptyGrid).bind fun _ =>
    (B.negativeToPositiveIndexWithRangecheck bi).bind fun bi2 =>
      Except.ok (B.metaAt bi2).mBBox

/-- Model of `GridBatchImpl::dualBbox(bi)` (GridBatchImpl.h:495-501): resolves the
index, takes the primal bounding box and increments each coordinate of its
maximum corner by one. -/
def GridBatchImpl.dualBbox (B : GridBatchImpl) (bi : ℤ) : Except Err CoordBBox :=
  (B.negativeToPositiveIndexWithRangecheck bi).bind fun bi2 =>
    (B.bbox bi2).bind fun bb =>
      Except.ok ⟨bb.bmin, bb.bmax + Coord.mk 1 1 1⟩

/-- Model of `GridBatchImpl::voxelSize(bi)` (GridBatchImpl.h:503-507). -/
def GridBatchImpl.voxelSize (B : GridBatchImpl) (bi : ℤ) : Except Err Vec3q :=
  (B.negativeToPositiveIndexWithRangecheck bi).bind fun bi2 =>
    Except.ok (B.metaAt bi2).mVoxelSize

/-- Model of `GridBatchImpl::voxelOrigin(bi)` (GridBatchImpl.h:509-513). -/
def GridBatchImpl.voxelOrigin (B : GridBatchImpl) (bi : ℤ) : Except Err Vec3q :=
  (B.negativeToPositiveIndexWithRangecheck bi).bind fun bi2 =>
    Except.ok (B.metaAt bi2).mVoxelOrigin

/-- The loop-carried state of `GridBatchImpl::indexInternal`
(GridBatchImpl.h:145-185): the running cumulative counters, the running
maxima, the element counter, the union bounding box, and the data
accumulated for the new instance. -/
structure IndexState where
  cumVoxels : ℤ := 0
  cumLeaves : ℤ := 0
  maxVoxels : ℤ := 0
  maxLeafCount : ℕ := 0
  count : ℕ := 0
  totalBbox : CoordBBox := default
  metas : List GridMetadata := []
  leafIdxs : List ℤ := []
  isContiguous : Bool := true

/-- One iteration of the `indexInternal` loop body (GridBatchImpl.h:156-185)
for an already resolved, in-range batch index `bi`: update the contiguity
flag, copy the selected element's metadata with the cumulative fields
rewritten to the running counters, extend the union bounding box, bump the
counters and maxima, and append the element's leaf-batch indices.
(`count` is an `int64_t` in the source; it starts at 0 and is only ever
incremented, so it is modelled as `ℕ`.) -/
def IndexState.step (B : GridBatchImpl) (s : IndexState) (bi : ℕ) : IndexState :=
  let m := B.mHostGridMetadata.getD bi default
  { cumVoxels := s.cumVoxels + m.mNumVoxels
    cumLeaves := s.cumLeaves + (m.mNumLeaves : ℤ)
    maxVoxels := max s.maxVoxels m.mNumVoxels
    maxLeafCount := max s.maxLeafCount m.mNumLeaves
    count := s.count + 1
    totalBbox := if s.count = 0 then m.mBBox else s.totalBbox.expand m.mBBox
    metas := s.metas ++ [{ m with mCumLeaves := s.cumLeaves, mCumVoxels := s.cumVoxels }]
    leafIdxs := s.leafIdxs ++ List.replicate m.mNumLeaves (s.count : ℤ)
    isContiguous := s.isContiguous && decide (bi = s.count) }

/-- The `indexInternal` loop over the index list, interleaving
`negativeToPositiveIndexWithRangecheck` (which may fail) with the state
update, exactly as the `for` loop at GridBatchImpl.h:156-185 does. -/
def indexLoop (B : GridBatchImpl) : List ℤ → IndexState → Except Err IndexState
  | [], s => Except.ok s
  | i :: rest, s =>
      (B.negativeToPositiveIndexWithRangecheck i).bind fun bi =>
        indexLoop B rest (s.step B bi.toNat)

/-- Modelled from the spec: the constructor `GridBatchImpl(device, isMutable)`
invoked by `indexInternal` for an empty index list lives in
`GridBatchImpl.cpp`, which is not part of this excerpt.  Per the spec
(sections 3 and 8) it produces an empty batch: no elements, zero totals, an
empty storage buffer on the requested device, the default (contiguous)
batch metadata, and the requested mutability flag. -/
def emptyGridBatchImpl (dev : TorchDevice) (isMut : Bool) : GridBatchImpl :=
  { mHostGridMetadata := []
    mBatchMetadata := { mIsMutable := isMut }
    mGridHdl :=
      { device := dev
        bufferIsEmpty := true
        treeBBoxAtOffset := fun _ => default
        hasHostGridPtr := false
        hasDeviceGridPtr := false }
    mLeafBatchIndices := []
    mListIndicesSize0 := 0 }

/-- Assembly of the new instance from the final loop state
(GridBatchImpl.h:142-143 and 187-208): the new host metadata array is the
accumulated one, the batch metadata is computed from the final counters
(contiguity additionally requires the element count to equal the source's
batch size, line 189), the storage handle is shared with the source, and the
list indices are copied. -/
def assembleIndexed (B : GridBatchImpl) (s : IndexState) : GridBatchImpl :=
  { mHostGridMetadata := s.metas
    mBatchMetadata :=
      { mIsContiguous := s.isContiguous && decide ((s.count : ℤ) = B.batchSize)
        mTotalLeaves := s.cumLeaves
        mTotalVoxels := s.cumVoxels
        mMaxVoxels := s.maxVoxels
        mMaxLeafCount := s.maxLeafCount
        mTotalBBox := s.totalBbox
        mIsMutable := B.isMutable }
    mGridHdl := B.mGridHdl
    mLeafBatchIndices := s.leafIdxs
    mListIndicesSize0 := B.mListIndicesSize0 }

/-- The initial loop state of `indexInternal` (GridBatchImpl.h:145-155):
zero counters and the contiguity flag inherited from the source batch
(`bool isContiguous = mBatchMetadata.mIsContiguous`, line 155). -/
def initIndexState (B : GridBatchImpl) : IndexState :=
  { isContiguous := B.mBatchMetadata.mIsContiguous }

/-- Model of `GridBatchImpl::indexInternal` (GridBatchImpl.h:134-210), specialised to
an index list (`Indexable` = list of `int64_t`, `size` = its length): an
empty selection returns a fresh empty batch on the same device with the same
mutability; otherwise the loop accumulates the new metadata array, the new
instance is assembled from the final loop state, the storage handle is
shared, and nested list indices are rejected.
(The `TORCH_CHECK(size >= 0, ...)` guard is vacuous here since the length of
a list is non-negative.) -/
def GridBatchImpl.indexInternal (B : GridBatchImpl) (idx : List ℤ) :
    Except Err GridBatchImpl :=
  if idx.length = 0 then
    Except.ok (emptyGridBatchImpl B.device B.isMutable)
  else
    (indexLoop B idx (initIndexState B)).bind fun s =>
      if 0 < B.mListIndicesSize0 then
        Except.error (Err.checkError "Nested lists of GridBatches are not supported yet")
      else
        Except.ok (assembleIndexed B s)

/-- Resolution of a whole index list, in order, failing at the first
out-of-range entry (the resolutions performed by the `indexInternal` loop,
separated from the state updates). -/
def resolveList (B : GridBatchImpl) : List ℤ → Except Err (List ℤ)
  | [] => Except.ok []
  | i :: rest =>
      (B.negativeToPositiveIndexWithRangecheck i).bind fun bi =>
        (resolveList B rest).bind fun R =>
          Except.ok (bi :: R)

/-- The pure (resolution-free) form of the `indexInternal` loop, folding
`IndexState.step` over an already-resolved index list. -/
def pureLoop (B : GridBatchImpl) : List ℕ → IndexState → IndexState
  | [], s => s
  | bi :: rest, s => pureLoop B rest (s.step B bi)

/-- The number of voxels of the source element at (already-resolved) batch
index `bi` (`mHostGridMetadata[bi].mNumVoxels`). -/
def GridBatchImpl.nvAt (B : GridBatchImpl) (bi : ℕ) : ℤ :=
  (B.mHostGridMetadata.getD bi default).mNumVoxels

/-- The number of leaves of the source element at (already-resolved) batch
index `bi`, as an integer. -/
def GridBatchImpl.nlAt (B : GridBatchImpl) (bi : ℕ) : ℤ :=
  ((B.mHostGridMetadata.getD bi default).mNumLeaves : ℤ)

/-- The metadata array built by the `indexInternal` loop for a resolved
index list, threading the running cumulative counters: each selected
element's metadata is copied with `mCumVoxels`/`mCumLeaves` rewritten. -/
def newMetasFrom (B : GridBatchImpl) : List ℕ → ℤ → ℤ → List GridMetadata
  | [], _, _ => []
  | bi :: rest, cv, cl =>
      let m := B.mHostGridMetadata.getD bi default
      { m with mCumVoxels := cv, mCumLeaves := cl } ::
        newMetasFrom B rest (cv + m.mNumVoxels) (cl + (m.mNumLeaves : ℤ))

/-- The identity index list `[0, 1, ..., n-1]` (as `int64_t` values). -/
def identityList (n : ℕ) : List ℤ :=
  (List.range n).map fun i : ℕ => (i : ℤ)

/-- The prefix-sum invariant on the per-element cumulative fields: each
element's `mCumVoxels` (resp. `mCumLeaves`) equals the sum of `mNumVoxels`
(resp. `mNumLeaves`) over all preceding elements in batch order. -/
def cumOK (B : GridBatchImpl) : Prop :=
  ∀ i, i < B.mHostGridMetadata.length →
    (B.mHostGridMetadata.getD i default).mCumVoxels =
        ((B.mHostGridMetadata.take i).map (fun m => m.mNumVoxels)).sum ∧
      (B.mHostGridMetadata.getD i default).mCumLeaves =
        ((B.mHostGridMetadata.take i).map (fun m => (m.mNumLeaves : ℤ))).sum

/-- The totals invariant: the batch-wide voxel (resp. leaf) total equals the
sum of the per-element counts. -/
def totalsOK (B : GridBatchImpl) : Prop :=
  B.mBatchMetadata.mTotalVoxels =
      (B.mHostGridMetadata.map (fun m => m.mNumVoxels)).sum ∧
    B.mBatchMetadata.mTotalLeaves =
      (B.mHostGridMetadata.map (fun m => (m.mNumLeaves : ℤ))).sum

/-- The per-element grid descriptor read off the storage handle during
construction: topology statistics, byte size, bounding box, and the
element's voxel size and origin. -/
structure GridDescriptor where
  numLeaves : ℕ := 0
  numVoxels : ℤ := 0
  numBytes : ℕ := 0
  bbox : CoordBBox := default
  voxelSize : Vec3q := ⟨1, 1, 1⟩
  voxelOrigin : Vec3q := ⟨0, 0, 0⟩

/-- The metadata record for one descriptor, before the cumulative fields are
assigned. -/
def GridDescriptor.toMeta (d : GridDescriptor) : GridMetadata :=
  { mVoxelSize := d.voxelSize
    mVoxelOrigin := d.voxelOrigin
    mNumLeaves := d.numLeaves
    mNumVoxels := d.numVoxels
    mNumBytes := d.numBytes
    mBBox := d.bbox }

/-- The left-to-right cumulative-offset pass of construction: assign each
element's `mCumVoxels`/`mCumLeaves`/`mCumBytes` from the running sums of the
preceding elements' counts. -/
def cumAssign : List GridMetadata → ℤ → ℤ → ℕ → List GridMetadata
  | [], _, _, _ => []
  | m :: rest, cv, cl, cb =>
      { m with mCumVoxels := cv, mCumLeaves := cl, mCumBytes := cb } ::
        cumAssign rest (cv + m.mNumVoxels) (cl + (m.mNumLeaves : ℤ)) (cb + m.mNumBytes)

/-- Modelled from the spec: construction of a `GridBatchImpl` from a storage
handle plus per-element descriptors.  The constructor bodies
(`GridBatchImpl(gridHdl, voxelSizes, voxelOrigins)` / `setGrid`) live in
`GridBatchImpl.cpp`, which is not part of this excerpt; per spec section 4.3
construction "walks the storage handle's per-element grid descriptors,
computing leaf/voxel counts, byte offsets, and bounding boxes, accumulating
running totals and per-element cumulative offsets in a single left-to-right
pass", populates the per-leaf batch-index array by replicating each
element's batch index across its leaf count, and yields a contiguous batch
(batch order = storage order at construction time). -/
def constructFromDescs (hdl : GridHandleModel) (isMut : Bool)
    (descs : List GridDescriptor) : GridBatchImpl :=
  let metas := cumAssign (descs.map GridDescriptor.toMeta) 0 0 0
  { mHostGridMetadata := metas
    mBatchMetadata :=
      { mTotalLeaves := (metas.map (fun m => (m.mNumLeaves : ℤ))).sum
        mTotalVoxels := (metas.map (fun m => m.mNumVoxels)).sum
        mMaxVoxels := (metas.map (fun m => m.mNumVoxels)).foldl max 0
        mMaxLeafCount := (metas.map (fun m => m.mNumLeaves)).foldl max 0
        mTotalBBox := (metas.map (fun m => m.mBBox)).foldl CoordBBox.expand default
        mIsMutable := isMut
        mIsContiguous := true }
    mGridHdl := hdl
    mLeafBatchIndices :=
      ((List.range metas.length).map fun i =>
        List.replicate (metas.getD i default).mNumLeaves (i : ℤ)).flatten
    mListIndicesSize0 := 0 }

/-- Model of `GridBatchImpl::Accessor` (GridBatchImpl.h:213-309): a trivially
copyable view of the engine state.  `mMetadata` models the raw pointer to
the (host or device) metadata array; the base grid pointer `mGridPtr` is
modelled by the byte-offset lookup `treeBBoxAtOffset` copied from the
handle, so that `grid(bi)` — `basePtr + mMetadata[bi].mCumBytes` — becomes a
lookup at that byte offset. -/
structure Accessor where
  mMetadata : List GridMetadata
  treeBBoxAtOffset : ℕ → CoordBBox
  mLeafBatchIndices : List ℤ
  mTotalVoxels : ℤ
  mTotalLeaves : ℤ
  mMaxVoxels : ℤ
  mMaxLeafCount : ℕ
  mGridCount : ℤ

/-- Model of `Accessor::batchSize()`. -/
def Accessor.batchSize (a : Accessor) : ℤ := a.mGridCount

/-- Model of `Accessor::negativeToPositiveIndexWithRangecheck` (GridBatchImpl.h:225-232):
a negative index is shifted by the batch size; the in-range condition is an
`assert`, which release builds skip, so resolution is modelled as the pure
shift. -/
def Accessor.resolveIndex (a : Accessor) (bi : ℤ) : ℤ :=
  if bi < 0 then bi + a.batchSize else bi

/-- The metadata record the accessor reads at a resolved index
(`mMetadata[bi]`). -/
def Accessor.metaAt (a : Accessor) (bi : ℤ) : GridMetadata :=
  a.mMetadata.getD bi.toNat default

/-- Model of `Accessor::grid(bi)` (GridBatchImpl.h:235-240), reduced to the byte
offset it dereferences: resolve the index and take `mMetadata[bi].mCumBytes`
past the base pointer. -/
def Accessor.gridOffset (a : Accessor) (bi : ℤ) : ℕ :=
  (a.metaAt (a.resolveIndex bi)).mCumBytes

/-- Model of `Accessor::bbox(bi)` (GridBatchImpl.h:242-246): resolve the index and
read `grid(bi)->tree().bbox()` from the underlying storage. -/
def Accessor.bbox (a : Accessor) (bi : ℤ) : CoordBBox :=
  a.treeBBoxAtOffset (a.gridOffset (a.resolveIndex bi))

/-- Model of `Accessor::dualBbox(bi)` (GridBatchImpl.h:248-254): resolve the index,
copy `bbox(bi)` and increment each coordinate of its maximum corner by
one. -/
def Accessor.dualBbox (a : Accessor) (bi : ℤ) : CoordBBox :=
  let r := a.resolveIndex bi
  let b := a.bbox r
  ⟨b.bmin, b.bmax + Coord.mk 1 1 1⟩

/-- Model of `Accessor::voxelOffset(bi)` (GridBatchImpl.h:261-265). -/
def Accessor.voxelOffset (a : Accessor) (bi : ℤ) : ℤ :=
  (a.metaAt (a.resolveIndex bi)).mCumVoxels

/-- Model of `Accessor::totalVoxels()` (GridBatchImpl.h:283-286). -/
def Accessor.totalVoxels (a : Accessor) : ℤ := a.mTotalVoxels

/-- Model of `GridBatchImpl::hostAccessor` (GridBatchImpl.h:311-327): fails on an
empty grid, reads the host metadata array and host grid pointer (checked
non-null), and copies the batch totals and maxima. -/
def GridBatchImpl.hostAccessor (B : GridBatchImpl) : Except Err Accessor :=
  if B.isEmpty then
    Except.error (Err.checkError "Cannot access empty grid")
  else if B.mGridHdl.hasHostGridPtr = false then
    Except.error (Err.checkError "Failed to get host grid pointer")
  else
    Except.ok
      { mMetadata := B.mHostGridMetadata
        treeBBoxAtOffset := B.mGridHdl.treeBBoxAtOffset
        mLeafBatchIndices := B.mLeafBatchIndices
        mTotalVoxels := B.mBatchMetadata.mTotalVoxels
        mTotalLeaves := B.mBatchMetadata.mTotalLeaves
        mMaxVoxels := B.mBatchMetadata.mMaxVoxels
        mMaxLeafCount := B.mBatchMetadata.mMaxLeafCount
        mGridCount := (B.mHostGridMetadata.length : ℤ) }

/-- Model of `GridBatchImpl::deviceAccessor` (GridBatchImpl.h:329-346): fails on an
empty grid, fails unless the storage device is CUDA, reads the
device-resident metadata mirror (kept in sync with the host array by
`syncMetadataToDeviceIfCUDA`, hence modelled by the host array) and the
device grid pointer (checked non-null), and copies the batch totals and
maxima. -/
def GridBatchImpl.deviceAccessor (B : GridBatchImpl) : Except Err Accessor :=
  if B.isEmpty then
    Except.error (Err.checkError "Cannot access empty grid")
  else if B.device.isCuda = false then
    Except.error (Err.checkError "Cannot access device accessor on non-CUDA device")
  else if B.mGridHdl.hasDeviceGridPtr = false then
    Except.error (Err.checkError "Failed to get device grid pointer")
  else
    Except.ok
      { mMetadata := B.mHostGridMetadata
        treeBBoxAtOffset := B.mGridHdl.treeBBoxAtOffset
        mLeafBatchIndices := B.mLeafBatchIndices
        mTotalVoxels := B.mBatchMetadata.mTotalVoxels
        mTotalLeaves := B.mBatchMetadata.mTotalLeaves
        mMaxVoxels := B.mBatchMetadata.mMaxVoxels
        mMaxLeafCount := B.mBatchMetadata.mMaxLeafCount
        mGridCount := (B.mHostGridMetadata.length : ℤ) }

/-- Model of `fvdb::detail::TorchDeviceBuffer` (TorchDeviceBuffer.cpp): a raw byte
buffer resident on host or accelerator memory.  The host/device pointers
`mCpuData`/`mGpuData` are modelled as optional byte contents (`none` =
null pointer). -/
structure TorchDeviceBuffer where
  mSize : ℕ
  mCpuData : Option (List ℕ)
  mGpuData : Option (List ℕ)
  mDevice : TorchDevice
deriving DecidableEq, Repr

/-- Model of `torch::kCPU` as a `torch::Device` (type cpu, no index). -/
def cpuDevice : TorchDevice := { dtype := DeviceType.cpu, index := -1 }

/-- Model of `TorchDeviceBuffer::copyDeviceToHostAndFreeDevice`
(TorchDeviceBuffer.cpp:284-303): requires a device pointer, allocates host
memory if needed, copies the bytes device-to-host and frees the device
allocation.  The allocation and stream bookkeeping is modelled by moving
the byte contents; freeing is modelled by clearing `mGpuData`. -/
def TorchDeviceBuffer.copyDeviceToHostAndFreeDevice (buf : TorchDeviceBuffer)
    (blocking : Bool) : Except Err TorchDeviceBuffer :=
  match buf.mGpuData with
  | none => Except.error (Err.checkError "uninitialized cpu data, this should never happen")
  | some bytes => Except.ok { buf with mCpuData := some bytes, mGpuData := none }

/-- Model of `TorchDeviceBuffer::copyHostToDeviceAndFreeHost`
(TorchDeviceBuffer.cpp:305-324): requires a host pointer, allocates device
memory if needed, copies the bytes host-to-device and frees the host
allocation. -/
def TorchDeviceBuffer.copyHostToDeviceAndFreeHost (buf : TorchDeviceBuffer)
    (blocking : Bool) : Except Err TorchDeviceBuffer :=
  match buf.mCpuData with
  | none => Except.error (Err.checkError "uninitialized cpu data, this should never happen")
  | some bytes => Except.ok { buf with mGpuData := some bytes, mCpuData := none }

/-- Model of `TorchDeviceBuffer::toCpu` (TorchDeviceBuffer.cpp:143-166): an empty
buffer just records the CPU device; otherwise, if currently on CUDA, the
bytes are copied to the host and the device allocation freed; any remaining
device allocation is freed, and the device is set to CPU.  (The source
issues a second `raw_delete` on the already-freed device pointer when the
copy ran; allocator state is outside this model.) -/
def TorchDeviceBuffer.toCpu (buf : TorchDeviceBuffer) (blocking : Bool) :
    Except Err TorchDeviceBuffer :=
  if buf.mGpuData = none ∧ buf.mCpuData = none then
    Except.ok { buf with mDevice := cpuDevice }
  else
    (if buf.mDevice.isCuda then buf.copyDeviceToHostAndFreeDevice blocking
     else Except.ok buf).bind fun buf1 =>
      Except.ok { buf1 with mGpuData := none, mDevice := cpuDevice }

/-- Model of `TorchDeviceBuffer::toCuda` (TorchDeviceBuffer.cpp:168-212): requires a
CUDA target with an index; an empty buffer just records the target device;
a same-device target is a no-op; CUDA-to-CUDA across different devices
stages the bytes through a temporary host buffer (contents preserved);
CPU-to-CUDA uploads via `copyHostToDeviceAndFreeHost`; anything else is the
"File a bug" branch. -/
def TorchDeviceBuffer.toCuda (buf : TorchDeviceBuffer) (toDevice : TorchDevice)
    (blocking : Bool) : Except Err TorchDeviceBuffer :=
  if toDevice.isCuda = false then
    Except.error (Err.checkError "Invalid device must be a CUDA device")
  else if toDevice.hasIndex = false then
    Except.error (Err.checkError "Invalid device must specify device index")
  else if buf.mGpuData = none ∧ buf.mCpuData = none then
    Except.ok { buf with mDevice := toDevice }
  else if toDevice = buf.mDevice then
    Except.ok buf
  else if buf.mDevice.isCuda then
    Except.ok { buf with mDevice := toDevice }
  else if buf.mDevice.isCpu then
    (buf.copyHostToDeviceAndFreeHost blocking).bind fun buf1 =>
      Except.ok { buf1 with mDevice := toDevice }
  else
    Except.error (Err.checkError "This should never happen. File a bug.")

/-- Model of `TorchDeviceBuffer::setDevice` (TorchDeviceBuffer.cpp:117-141): a no-op
when the target equals the current device; an empty buffer (both data
pointers null) just records the target device, after checking that a CUDA
target carries a device index; otherwise migration is delegated to
`toCpu`/`toCuda`, and non-CPU/CUDA targets are rejected. -/
def TorchDeviceBuffer.setDevice (buf : TorchDeviceBuffer) (toDevice : TorchDevice)
    (blocking : Bool) : Except Err TorchDeviceBuffer :=
  if toDevice = buf.mDevice then
    Except.ok buf
  else if buf.mCpuData = none ∧ buf.mGpuData = none then
    if toDevice.isCuda ∧ toDevice.hasIndex = false then
      Except.error (Err.checkError "Invalid CUDA device must specify device index")
    else
      Except.ok { buf with mDevice := toDevice }
  else if toDevice.isCpu then
    buf.toCpu blocking
  else if toDevice.isCuda then
    buf.toCuda toDevice blocking
  else
    Except.error (Err.checkError "Only CPU and CUDA devices are supported")

/-- Model of `fvdb::GridBatch` (GridBatch.cpp): the public wrapper around a
`GridBatchImpl`.  `countEnabledKernel` models the result of the external
numerical kernel `detail::ops::dispatchCountEnabledVoxels` (outside this
excerpt), which counts the enabled voxels of one batch element of a mutable
grid. -/
structure GridBatch where
  impl : GridBatchImpl
  countEnabledKernel : ℤ → ℤ

/-- Model of `GridBatch::grid_count()`: the batch size of the underlying engine
(delegation declared in GridBatch.h, outside this excerpt; spec section 3:
batch size = length of the host metadata array). -/
def GridBatch.grid_count (g : GridBatch) : ℤ := g.impl.batchSize

/-- Model of `GridBatch::is_mutable()`: the engine's mutability flag (delegation
declared in GridBatch.h, outside this excerpt). -/
def GridBatch.is_mutable (g : GridBatch) : Bool := g.impl.isMutable

/-- Model of `GridBatch::num_voxels_at(bi)`: the engine's per-element voxel count
(delegation declared in GridBatch.h, outside this excerpt). -/
def GridBatch.num_voxels_at (g : GridBatch) (bi : ℤ) : Except Err ℤ :=
  g.impl.numVoxels bi

/-- Model of `GridBatch::cum_voxels_at(bi)`: the engine's per-element cumulative
voxel count (delegation declared in GridBatch.h, outside this excerpt). -/
def GridBatch.cum_voxels_at (g : GridBatch) (bi : ℤ) : Except Err ℤ :=
  g.impl.cumVoxels bi

/-- Model of `GridBatch::num_voxels()` (GridBatch.cpp:362-373): fill a length-
`grid_count()` tensor with `num_voxels_at(bi)` for each `bi`, modelled as
the list of those per-element results. -/
def GridBatch.num_voxels (g : GridBatch) : Except Err (List ℤ) :=
  (List.range g.impl.mHostGridMetadata.length).mapM fun bi =>
    g.num_voxels_at (bi : ℤ)

/-- Model of `GridBatch::num_enabled_voxels_at(bi)` (GridBatch.cpp:391-401): on an
immutable batch this is exactly `num_voxels_at(bi)`; on a mutable batch the
enabled voxels are counted by the external kernel. -/
def GridBatch.num_enabled_voxels_at (g : GridBatch) (bi : ℤ) : Except Err ℤ :=
  if g.is_mutable = false then
    g.num_voxels_at bi
  else
    Except.ok (g.countEnabledKernel bi)

/-- Model of `GridBatch::num_enabled_voxels()` (GridBatch.cpp:375-389): on an
immutable batch this returns `num_voxels()`; on a mutable batch it fills the
result with `num_enabled_voxels_at(bi)` for each `bi`. -/
def GridBatch.num_enabled_voxels (g : GridBatch) : Except Err (List ℤ) :=
  if g.is_mutable = false then
    g.num_voxels
  else
    (List.range g.impl.mHostGridMetadata.length).mapM fun bi =>
      g.num_enabled_voxels_at (bi : ℤ)

/-- Model of `GridBatch::cum_voxels()` (GridBatch.cpp:403-413). -/
def GridBatch.cum_voxels (g : GridBatch) : Except Err (List ℤ) :=
  (List.range g.impl.mHostGridMetadata.length).mapM fun bi =>
    g.cum_voxels_at (bi : ℤ)

/-- Model of `GridBatch::cum_enabled_voxels_at(bi)` (GridBatch.cpp:431-439): the sum
of `num_enabled_voxels_at(b)` over `b < bi`. -/
def GridBatch.cum_enabled_voxels_at (g : GridBatch) (bi : ℤ) : Except Err ℤ :=
  (List.range bi.toNat).foldlM
    (fun acc b => (g.num_enabled_voxels_at (b : ℤ)).map fun n => acc + n) 0

/-- Model of `GridBatch::cum_enabled_voxels()` (GridBatch.cpp:415-429): on an
immutable batch this returns `cum_voxels()`; on a mutable batch it fills the
result with `cum_enabled_voxels_at(bi)` for each `bi`. -/
def GridBatch.cum_enabled_voxels (g : GridBatch) : Except Err (List ℤ) :=
  if g.is_mutable = false then
    g.cum_voxels
  else
    (List.range g.impl.mHostGridMetadata.length).mapM fun bi =>
      g.cum_enabled_voxels_at (bi : ℤ)

/-- Classification of a result as an invalid-argument-class failure
(a `TORCH_CHECK` / c10::Error failure). -/
def isInvalidArgKind {α : Type} : Except Err α → Bool
  | Except.error (Err.checkError _) => true
  | _ => false

/-- The contiguity flag of a successfully produced batch. -/
def contiguityFlagOf : Except Err GridBatchImpl → Option Bool
  | Except.ok r => some r.mBatchMetadata.mIsContiguous
  | Except.error _ => none

/-- A concrete tree-bounding-box layout for the example storage handle:
byte offset 0 holds a tree with bounding box [(0,0,0),(2,2,2)], byte offset
256 one with [(5,5,5),(6,6,6)]. -/
def exTreeBBox : ℕ → CoordBBox := fun off =>
  if off = 0 then ⟨⟨0, 0, 0⟩, ⟨2, 2, 2⟩⟩ else ⟨⟨5, 5, 5⟩, ⟨6, 6, 6⟩⟩

/-- A concrete non-empty host-resident storage handle. -/
def exHandle : GridHandleModel :=
  { device := cpuDevice
    bufferIsEmpty := false
    treeBBoxAtOffset := exTreeBBox
    hasHostGridPtr := true
    hasDeviceGridPtr := false }

/-- Element 0 of the concrete scenario of spec section 8: 10 active voxels,
bounding box [(0,0,0),(2,2,2)]. -/
def exMeta0 : GridMetadata :=
  { mCumLeaves := 0, mCumVoxels := 0, mCumBytes := 0
    mNumLeaves := 1, mNumVoxels := 10, mNumBytes := 256
    mBBox := ⟨⟨0, 0, 0⟩, ⟨2, 2, 2⟩⟩ }

/-- Element 1 of the concrete scenario of spec section 8: 5 active voxels,
bounding box [(5,5,5),(6,6,6)]. -/
def exMeta1 : GridMetadata :=
  { mCumLeaves := 1, mCumVoxels := 10, mCumBytes := 256
    mNumLeaves := 2, mNumVoxels := 5, mNumBytes := 512
    mBBox := ⟨⟨5, 5, 5⟩, ⟨6, 6, 6⟩⟩ }

/-- The concrete two-element batch of spec section 8 (15 voxels total,
bounding box [(0,0,0),(6,6,6)], contiguous, immutable, host-resident). -/
def exBatch2 : GridBatchImpl :=
  { mHostGridMetadata := [exMeta0, exMeta1]
    mBatchMetadata :=
      { mTotalLeaves := 3, mTotalVoxels := 15, mMaxVoxels := 10, mMaxLeafCount := 2
        mTotalBBox := ⟨⟨0, 0, 0⟩, ⟨6, 6, 6⟩⟩
        mIsMutable := false, mIsContiguous := true }
    mGridHdl := exHandle
    mLeafBatchIndices := [0, 1, 1]
    mListIndicesSize0 := 0 }

/-- A concrete one-element contiguous batch (element 0 only). -/
def exBatch1 : GridBatchImpl :=
  { mHostGridMetadata := [exMeta0]
    mBatchMetadata :=
      { mTotalLeaves := 1, mTotalVoxels := 10, mMaxVoxels := 10, mMaxLeafCount := 1
        mTotalBBox := ⟨⟨0, 0, 0⟩, ⟨2, 2, 2⟩⟩
        mIsMutable := false, mIsContiguous := true }
    mGridHdl := exHandle
    mLeafBatchIndices := [0]
    mListIndicesSize0 := 0 }

/-- The batch produced by indexing the concrete two-element batch with the
reversing index list `[1, 0]`. -/
def exIndexed : GridBatchImpl :=
  match exBatch2.indexInternal [1, 0] with
  | Except.ok r => r
  | Except.error _ => emptyGridBatchImpl cpuDevice false

/-- The resolved index list obtained while indexing `exBatch2` with
`[1, 0]`. -/
def exResolved : List ℤ :=
  match resolveList exBatch2 [1, 0] with
  | Except.ok r => r
  | Except.error _ => []

/-- The accessor obtained from the concrete two-element batch. -/
def exAccessor : Accessor :=
  match exBatch2.hostAccessor with
  | Except.ok a => a
  | Except.error _ =>
      { mMetadata := [], treeBBoxAtOffset := exTreeBBox, mLeafBatchIndices := []
        mTotalVoxels := 0, mTotalLeaves := 0, mMaxVoxels := 0, mMaxLeafCount := 0
        mGridCount := 0 }

/-- A concrete immutable `GridBatch` wrapper over the two-element batch
(with a trivially-zero enabled-count kernel; it is never consulted on an
immutable batch). -/
def exGridBatch : GridBatch :=
  { impl := exBatch2, countEnabledKernel := fun _ => 0 }

/-- An empty (zero-sized) host-resident device buffer. -/
def exEmptyCpuBuffer : TorchDeviceBuffer :=
  { mSize := 0, mCpuData := none, mGpuData := none, mDevice := cpuDevice }

/-- The CUDA device type without a device index. -/
def cudaNoIndex : TorchDevice := { dtype := DeviceType.cuda, index := -1 }

/-- CUDA device 0. -/
def cuda0 : TorchDevice := { dtype := DeviceType.cuda, index := 0 }
theorem Vec3q.ext3 (a b : Vec3q) (hx : a.x = b.x) (hy : a.y = b.y) (hz : a.z = b.z) :
    a = b := by
  cases a; cases b; simp_all

@[simp] theorem Vec3q.add_def (a b : Vec3q) :
    a + b = ⟨a.x + b.x, a.y + b.y, a.z + b.z⟩ := rfl

@[simp] theorem Vec3q.sub_def (a b : Vec3q) :
    a - b = ⟨a.x - b.x, a.y - b.y, a.z - b.z⟩ := rfl

@[simp] theorem Vec3q.mul_def (a b : Vec3q) :
    a * b = ⟨a.x * b.x, a.y * b.y, a.z * b.z⟩ := rfl

@[simp] theorem Vec3q.div_def (a b : Vec3q) :
    a / b = ⟨a.x / b.x, a.y / b.y, a.z / b.z⟩ := rfl

@[simp] theorem Vec3q.scale_def (v : Vec3q) (c : ℚ) :
    v.scale c = ⟨v.x * c, v.y * c, v.z * c⟩ := rfl

/-- C4 (amended): for every transform with positive voxel size and every
*strictly positive* per-axis integer factor, deriving the coarse voxel size
and origin by the coarsening rule and then deriving the fine voxel size and
origin from that coarse result with the same factor reproduces the original
voxel size and origin exactly. -/
theorem c4_coarsen_then_subdivide_roundtrip (s o : Vec3q) (f : Coord)
    (hs : s.allPos) (hf : f.allPos) :
    coarsenThenSubdivide s o f = Except.ok (s, o) := by
  obtain ⟨hx, hy, hz⟩ := hf
  have hfx : (f.x : ℚ) ≠ 0 := by exact_mod_cast hx.ne'
  have hfy : (f.y : ℚ) ≠ 0 := by exact_mod_cast hy.ne'
  have hfz : (f.z : ℚ) ≠ 0 := by exact_mod_cast hz.ne'
  simp only [coarsenThenSubdivide, coarseVoxSizeAndOrigin, fineVoxSizeAndOrigin,
    if_pos (show f.allPos from ⟨hx, hy, hz⟩)]
  simp only [Except.bind]
  refine congrArg Except.ok (Prod.ext ?_ ?_) <;>
    refine Vec3q.ext3 _ _ ?_ ?_ ?_ <;>
      simp [Coord.asVec3d, Vec3q.ones] <;> field_simp

/-- C4 counterexample: the claim quantifies over *non-negative* integer
factors, but with the factor 0 the coarsening derivation fails its
`TORCH_CHECK` ("Coarsening factor must be greater than 0"), so the round
trip does not reproduce the original transform. -/
theorem c4_counterexample :
    coarsenThenSubdivide ⟨1, 1, 1⟩ ⟨0, 0, 0⟩ ⟨0, 0, 0⟩ =
        Except.error (Err.checkError "Coarsening factor must be greater than 0") ∧
      coarsenThenSubdivide ⟨1, 1, 1⟩ ⟨0, 0, 0⟩ ⟨0, 0, 0⟩ ≠
        Except.ok (⟨1, 1, 1⟩, ⟨0, 0, 0⟩) := by
  have h : coarsenThenSubdivide ⟨1, 1, 1⟩ ⟨0, 0, 0⟩ ⟨0, 0, 0⟩ =
      Except.error (Err.checkError "Coarsening factor must be greater than 0") := by
    have hnp : ¬ Coord.allPos ⟨0, 0, 0⟩ := by
      intro hp
      exact absurd hp.1 (by decide)
    simp [coarsenThenSubdivide, coarseVoxSizeAndOrigin, if_neg hnp, Except.bind]
  refine ⟨h, ?_⟩
  rw [h]
  intro hcontra
  cases hcontra

/-- C4 witness: the round-trip theorem applied at the concrete transform
(size (1,2,5), origin (2,3,4)) and factor (2,3,4). -/
theorem c4_witness :
    Vec3q.allPos ⟨1, 2, 5⟩ ∧ Coord.allPos ⟨2, 3, 4⟩ ∧
      coarsenThenSubdivide ⟨1, 2, 5⟩ ⟨2, 3, 4⟩ ⟨2, 3, 4⟩ =
        Except.ok (⟨1, 2, 5⟩, ⟨2, 3, 4⟩) :=
  ⟨⟨by norm_num, by norm_num, by norm_num⟩, by decide,
    c4_coarsen_then_subdivide_roundtrip ⟨1, 2, 5⟩ ⟨2, 3, 4⟩ ⟨2, 3, 4⟩
      ⟨by norm_num, by norm_num, by norm_num⟩ (by decide)⟩

theorem exceptBind_ok {α β : Type} (a : α) (f : α → Except Err β) :
    (Except.ok a : Except Err α).bind f = f a := rfl

theorem exceptBind_error {α β : Type} (e : Err) (f : α → Except Err β) :
    (Except.error e : Except Err α).bind f = Except.error e := rfl

theorem batchSize_nonneg (B : GridBatchImpl) : 0 ≤ B.batchSize :=
  Int.natCast_nonneg _

theorem resolve_ok_bounds (B : GridBatchImpl) (bi r : ℤ)
    (h : B.negativeToPositiveIndexWithRangecheck bi = Except.ok r) :
    0 ≤ r ∧ r < B.batchSize := by
  simp only [GridBatchImpl.negativeToPositiveIndexWithRangecheck] at h
  by_cases hc : 0 ≤ (if bi < 0 then bi + B.batchSize else bi) ∧
      (if bi < 0 then bi + B.batchSize else bi) < B.batchSize
  · rw [if_pos hc] at h
    cases h
    exact hc
  · rw [if_neg hc] at h
    cases h

theorem resolve_nonneg_lt (B : GridBatchImpl) (bi : ℤ) (h0 : 0 ≤ bi)
    (hlt : bi < B.batchSize) :
    B.negativeToPositiveIndexWithRangecheck bi = Except.ok bi := by
  simp only [GridBatchImpl.negativeToPositiveIndexWithRangecheck]
  rw [if_neg (not_lt.mpr h0), if_pos ⟨h0, hlt⟩]

theorem resolveList_ok_length (B : GridBatchImpl) :
    ∀ idx R, resolveList B idx = Except.ok R → R.length = idx.length
  | [], R, h => by cases h; rfl
  | i :: rest, R, h => by
      simp only [resolveList] at h
      cases hr : B.negativeToPositiveIndexWithRangecheck i with
      | error e => rw [hr, exceptBind_error] at h; cases h
      | ok bi =>
        rw [hr, exceptBind_ok] at h
        cases hrest : resolveList B rest with
        | error e => rw [hrest, exceptBind_error] at h; cases h
        | ok R2 =>
          rw [hrest, exceptBind_ok] at h
          cases h
          simp [resolveList_ok_length B rest R2 hrest]

theorem resolveList_ok_getD (B : GridBatchImpl) :
    ∀ idx R, resolveList B idx = Except.ok R →
      ∀ i, i < idx.length →
        B.negativeToPositiveIndexWithRangecheck (idx.getD i 0) = Except.ok (R.getD i 0)
  | [], _, _, i, hi => absurd hi (by simp)
  | a :: rest, R, h, i, hi => by
      simp only [resolveList] at h
      cases hr : B.negativeToPositiveIndexWithRangecheck a with
      | error e => rw [hr, exceptBind_error] at h; cases h
      | ok bi =>
        rw [hr, exceptBind_ok] at h
        cases hrest : resolveList B rest with
        | error e => rw [hrest, exceptBind_error] at h; cases h
        | ok R2 =>
          rw [hrest, exceptBind_ok] at h
          cases h
          cases i with
          | zero => simpa using hr
          | succ j =>
            have hj : j < rest.length := by simpa using hi
            simpa using resolveList_ok_getD B rest R2 hrest j hj

theorem getD_map_toNat :
    ∀ (R : List ℤ) (i : ℕ), (R.map Int.toNat).getD i 0 = (R.getD i 0).toNat
  | [], i => by simp
  | r :: R, 0 => by simp
  | r :: R, (i + 1) => by simpa using getD_map_toNat R i

theorem indexLoop_ok (B : GridBatchImpl) :
    ∀ idx s s', indexLoop B idx s = Except.ok s' →
      ∃ R, resolveList B idx = Except.ok R ∧ s' = pureLoop B (R.map Int.toNat) s
  | [], s, s', h => by cases h; exact ⟨[], rfl, rfl⟩
  | i :: rest, s, s', h => by
      simp only [indexLoop] at h
      cases hr : B.negativeToPositiveIndexWithRangecheck i with
      | error e => rw [hr, exceptBind_error] at h; cases h
      | ok bi =>
        rw [hr, exceptBind_ok] at h
        obtain ⟨R, hR, hs⟩ := indexLoop_ok B rest (s.step B bi.toNat) s' h
        refine ⟨bi :: R, ?_, hs⟩
        simp [resolveList, hr, exceptBind_ok, hR]

theorem pureLoop_metas (B : GridBatchImpl) :
    ∀ Rn s, (pureLoop B Rn s).metas =
      s.metas ++ newMetasFrom B Rn s.cumVoxels s.cumLeaves
  | [], s => by simp [pureLoop, newMetasFrom]
  | bi :: rest, s => by
      simp only [pureLoop]
      rw [pureLoop_metas B rest (s.step B bi)]
      simp [IndexState.step, newMetasFrom]

theorem pureLoop_cumVoxels (B : GridBatchImpl) :
    ∀ Rn s, (pureLoop B Rn s).cumVoxels = s.cumVoxels + (Rn.map B.nvAt).sum
  | [], s => by simp [pureLoop]
  | bi :: rest, s => by
      simp only [pureLoop]
      rw [pureLoop_cumVoxels B rest (s.step B bi)]
      simp [IndexState.step, GridBatchImpl.nvAt]
      omega

theorem pureLoop_cumLeaves (B : GridBatchImpl) :
    ∀ Rn s, (pureLoop B Rn s).cumLeaves = s.cumLeaves + (Rn.map B.nlAt).sum
  | [], s => by simp [pureLoop]
  | bi :: rest, s => by
      simp only [pureLoop]
      rw [pureLoop_cumLeaves B rest (s.step B bi)]
      simp [IndexState.step, GridBatchImpl.nlAt]
      omega

theorem pureLoop_count (B : GridBatchImpl) :
    ∀ Rn s, (pureLoop B Rn s).count = s.count + Rn.length
  | [], s => by simp [pureLoop]
  | bi :: rest, s => by
      simp only [pureLoop]
      rw [pureLoop_count B rest (s.step B bi)]
      simp [IndexState.step]
      omega

theorem bool_and_decide_cons {α : Type} [DecidableEq α] (a : Bool) (x y : α)
    (l r : List α) :
    ((a && decide (x = y)) && decide (l = r)) = (a && decide (x :: l = y :: r)) := by
  by_cases h1 : x = y <;> by_cases h2 : l = r <;>
    simp [h1, h2, List.cons.injEq, Bool.and_assoc]

theorem pureLoop_isContiguous (B : GridBatchImpl) :
    ∀ Rn s, (pureLoop B Rn s).isContiguous =
      (s.isContiguous && decide (Rn = List.range' s.count Rn.length))
  | [], s => by simp [pureLoop]
  | bi :: rest, s => by
      simp only [pureLoop]
      rw [pureLoop_isContiguous B rest (s.step B bi)]
      simp only [IndexState.step, List.length_cons, List.range'_succ]
      exact bool_and_decide_cons s.isContiguous bi s.count rest
        (List.range' (s.count + 1) rest.length)

theorem newMetasFrom_length (B : GridBatchImpl) :
    ∀ Rn cv cl, (newMetasFrom B Rn cv cl).length = Rn.length
  | [], _, _ => rfl
  | bi :: rest, cv, cl => by
      simp [newMetasFrom, newMetasFrom_length B rest]

theorem newMetasFrom_map_nv (B : GridBatchImpl) :
    ∀ Rn cv cl, (newMetasFrom B Rn cv cl).map (fun m => m.mNumVoxels) = Rn.map B.nvAt
  | [], _, _ => rfl
  | bi :: rest, cv, cl => by
      simp [newMetasFrom, newMetasFrom_map_nv B rest, GridBatchImpl.nvAt]

theorem newMetasFrom_map_nl (B : GridBatchImpl) :
    ∀ Rn cv cl, (newMetasFrom B Rn cv cl).map (fun m => (m.mNumLeaves : ℤ)) = Rn.map B.nlAt
  | [], _, _ => rfl
  | bi :: rest, cv, cl => by
      simp [newMetasFrom, newMetasFrom_map_nl B rest, GridBatchImpl.nlAt]

theorem newMetasFrom_getD (B : GridBatchImpl) :
    ∀ Rn cv cl i, i < Rn.length →
      (newMetasFrom B Rn cv cl).getD i default =
        { B.mHostGridMetadata.getD (Rn.getD i 0) default with
            mCumVoxels := cv + ((Rn.take i).map B.nvAt).sum
            mCumLeaves := cl + ((Rn.take i).map B.nlAt).sum }
  | [], _, _, i, hi => absurd hi (by simp)
  | bi :: rest, cv, cl, 0, hi => by
      simp [newMetasFrom]
  | bi :: rest, cv, cl, (i + 1), hi => by
      have hi' : i < rest.length := by simpa using hi
      simp only [newMetasFrom, List.getD_cons_succ]
      rw [newMetasFrom_getD B rest _ _ i hi']
      simp [GridBatchImpl.nvAt, GridBatchImpl.nlAt, add_assoc]

theorem cumAssign_length :
    ∀ (l : List GridMetadata) cv cl cb, (cumAssign l cv cl cb).length = l.length
  | [], _, _, _ => rfl
  | m :: rest, cv, cl, cb => by
      simp [cumAssign, cumAssign_length rest]

theorem cumAssign_map_nv :
    ∀ (l : List GridMetadata) cv cl cb,
      (cumAssign l cv cl cb).map (fun m => m.mNumVoxels) = l.map (fun m => m.mNumVoxels)
  | [], _, _, _ => rfl
  | m :: rest, cv, cl, cb => by
      simp [cumAssign, cumAssign_map_nv rest]

theorem cumAssign_map_nl :
    ∀ (l : List GridMetadata) cv cl cb,
      (cumAssign l cv cl cb).map (fun m => (m.mNumLeaves : ℤ)) =
        l.map (fun m => (m.mNumLeaves : ℤ))
  | [], _, _, _ => rfl
  | m :: rest, cv, cl, cb => by
      simp [cumAssign, cumAssign_map_nl rest]

theorem cumAssign_getD :
    ∀ (l : List GridMetadata) cv cl cb i, i < l.length →
      (cumAssign l cv cl cb).getD i default =
        { l.getD i default with
            mCumVoxels := cv + ((l.take i).map (fun m => m.mNumVoxels)).sum
            mCumLeaves := cl + ((l.take i).map (fun m => (m.mNumLeaves : ℤ))).sum
            mCumBytes := cb + ((l.take i).map (fun m => m.mNumBytes)).sum }
  | [], _, _, _, i, hi => absurd hi (by simp)
  | m :: rest, cv, cl, cb, 0, hi => by
      simp [cumAssign]
  | m :: rest, cv, cl, cb, (i + 1), hi => by
      have hi' : i < rest.length := by simpa using hi
      simp only [cumAssign, List.getD_cons_succ]
      rw [cumAssign_getD rest _ _ _ i hi']
      simp [add_assoc]

theorem indexInternal_ok_elim (B : GridBatchImpl) (idx : List ℤ) (B' : GridBatchImpl)
    (h : B.indexInternal idx = Except.ok B') :
    (idx = [] ∧ B' = emptyGridBatchImpl B.device B.isMutable) ∨
      (idx ≠ [] ∧ B.mListIndicesSize0 = 0 ∧
        ∃ R, resolveList B idx = Except.ok R ∧
          B' = assembleIndexed B (pureLoop B (R.map Int.toNat) (initIndexState B))) := by
  unfold GridBatchImpl.indexInternal at h
  by_cases hlen : idx.length = 0
  · rw [if_pos hlen] at h
    cases h
    exact Or.inl ⟨List.length_eq_zero.mp hlen, rfl⟩
  · rw [if_neg hlen] at h
    cases hL : indexLoop B idx (initIndexState B) with
    | error e => rw [hL, exceptBind_error] at h; cases h
    | ok s =>
      rw [hL, exceptBind_ok] at h
      by_cases hnest : 0 < B.mListIndicesSize0
      · rw [if_pos hnest] at h; cases h
      · rw [if_neg hnest] at h
        cases h
        obtain ⟨R, hR, hs⟩ := indexLoop_ok B idx (initIndexState B) s hL
        refine Or.inr ⟨fun hc => hlen (by simp [hc]), by omega, R, hR, by rw [hs]⟩

theorem optionMap_toNat_getD (o : Option ℤ) :
    (Option.map Int.toNat o).getD 0 = (o.getD 0).toNat := by
  cases o <;> rfl

/-- C1: for every batch `B` and every valid index list `idx` (validity being
exactly what makes the index operation succeed), the index operation
produces a new instance whose batch size equals the length of `idx`, and
for each position `i` in `idx`, the new instance's per-element voxel count
at `i` equals `B`'s voxel count at `idx[i]` (the per-element metadata being
copied from the selected source elements). -/
theorem c1_index_batch_size_and_voxel_counts (B : GridBatchImpl) (idx : List ℤ)
    (B' : GridBatchImpl) (hok : B.indexInternal idx = Except.ok B') :
    B'.batchSize = (idx.length : ℤ) ∧
      ∀ i : ℕ, i < idx.length → B'.numVoxels (i : ℤ) = B.numVoxels (idx.getD i 0) := by
  rcases indexInternal_ok_elim B idx B' hok with ⟨hidx, hB'⟩ | ⟨hne, hnest, R, hR, hB'⟩
  · subst hB'; subst hidx
    exact ⟨rfl, fun i hi => absurd hi (by simp)⟩
  · subst hB'
    have hRlen : R.length = idx.length := resolveList_ok_length B idx R hR
    have hmetas : (assembleIndexed B (pureLoop B (R.map Int.toNat) (initIndexState B))).mHostGridMetadata
        = newMetasFrom B (R.map Int.toNat) 0 0 := by
      show (pureLoop B (R.map Int.toNat) (initIndexState B)).metas = _
      rw [pureLoop_metas]
      simp [initIndexState]
    have hlen2 : (assembleIndexed B (pureLoop B (R.map Int.toNat) (initIndexState B))).mHostGridMetadata.length
        = idx.length := by
      rw [hmetas, newMetasFrom_length]
      simp [hRlen]
    refine ⟨?_, ?_⟩
    · show ((assembleIndexed B (pureLoop B (R.map Int.toNat) (initIndexState B))).mHostGridMetadata.length : ℤ) = _
      rw [hlen2]
    · intro i hi
      have hresA : (assembleIndexed B (pureLoop B (R.map Int.toNat) (initIndexState B))).negativeToPositiveIndexWithRangecheck (i : ℤ)
          = Except.ok (i : ℤ) := by
        refine resolve_nonneg_lt _ _ (Int.natCast_nonneg i) ?_
        show (i : ℤ) < ((assembleIndexed B (pureLoop B (R.map Int.toNat) (initIndexState B))).mHostGridMetadata.length : ℤ)
        rw [hlen2]
        exact_mod_cast hi
      have hiR : i < (R.map Int.toNat).length := by
        simp [hRlen, hi]
      rw [GridBatchImpl.numVoxels, hresA, exceptBind_ok,
        GridBatchImpl.numVoxels, resolveList_ok_getD B idx R hR i hi, exceptBind_ok]
      simp only [GridBatchImpl.metaAt, Int.toNat_natCast]
      rw [hmetas, newMetasFrom_getD B (R.map Int.toNat) 0 0 i hiR]
      simp [getD_map_toNat, optionMap_toNat_getD]

/-- C1 witness: indexing the concrete two-element batch with `[1, 0]` gives
batch size 2, and element 0 of the result has element 1's voxel count. -/
theorem c1_witness :
    exIndexed.batchSize = (([1, 0] : List ℤ).length : ℤ) ∧
      exIndexed.numVoxels 0 = exBatch2.numVoxels 1 := by
  refine ⟨(c1_index_batch_size_and_voxel_counts exBatch2 [1, 0] exIndexed rfl).1, ?_⟩
  have h := (c1_index_batch_size_and_voxel_counts exBatch2 [1, 0] exIndexed rfl).2 0
    (by decide)
  simpa using h

/-- C2: every instance produced by indexing or by construction satisfies the
prefix-sum invariant on the cumulative per-element voxel and leaf fields,
and its batch totals equal the sums of the per-element counts. -/
theorem c2_cumulative_prefix_sums_and_totals :
    (∀ (B : GridBatchImpl) (idx : List ℤ) (B' : GridBatchImpl),
        B.indexInternal idx = Except.ok B' → cumOK B' ∧ totalsOK B') ∧
      ∀ (hdl : GridHandleModel) (isMut : Bool) (descs : List GridDescriptor),
        cumOK (constructFromDescs hdl isMut descs) ∧
          totalsOK (constructFromDescs hdl isMut descs) := by
  constructor
  · intro B idx B' hok
    rcases indexInternal_ok_elim B idx B' hok with ⟨hidx, hB'⟩ | ⟨hne, hnest, R, hR, hB'⟩
    · subst hB'
      constructor
      · intro i hi
        simp [emptyGridBatchImpl] at hi
      · exact ⟨rfl, rfl⟩
    · subst hB'
      have hmetas : (assembleIndexed B (pureLoop B (R.map Int.toNat) (initIndexState B))).mHostGridMetadata
          = newMetasFrom B (R.map Int.toNat) 0 0 := by
        show (pureLoop B (R.map Int.toNat) (initIndexState B)).metas = _
        rw [pureLoop_metas]
        simp [initIndexState]
      have hmapv : ∀ j : ℕ,
          (((newMetasFrom B (R.map Int.toNat) 0 0).take j).map (fun m => m.mNumVoxels))
            = ((R.map Int.toNat).take j).map B.nvAt := by
        intro j
        rw [List.map_take, newMetasFrom_map_nv, ← List.map_take]
      have hmapl : ∀ j : ℕ,
          (((newMetasFrom B (R.map Int.toNat) 0 0).take j).map (fun m => (m.mNumLeaves : ℤ)))
            = ((R.map Int.toNat).take j).map B.nlAt := by
        intro j
        rw [List.map_take, newMetasFrom_map_nl, ← List.map_take]
      constructor
      · intro i hi
        rw [hmetas] at hi ⊢
        rw [newMetasFrom_length] at hi
        rw [newMetasFrom_getD B (R.map Int.toNat) 0 0 i hi, hmapv, hmapl]
        simp
      · constructor
        · show (pureLoop B (R.map Int.toNat) (initIndexState B)).cumVoxels = _
          rw [pureLoop_cumVoxels, hmetas, newMetasFrom_map_nv]
          simp [initIndexState]
        · show (pureLoop B (R.map Int.toNat) (initIndexState B)).cumLeaves = _
          rw [pureLoop_cumLeaves, hmetas, newMetasFrom_map_nl]
          simp [initIndexState]
  · intro hdl isMut descs
    constructor
    · intro i hi
      have hmapv : ((cumAssign (descs.map GridDescriptor.toMeta) 0 0 0).take i).map
            (fun m => m.mNumVoxels)
          = ((descs.map GridDescriptor.toMeta).take i).map (fun m => m.mNumVoxels) := by
        rw [List.map_take, cumAssign_map_nv, ← List.map_take]
      have hmapl : ((cumAssign (descs.map GridDescriptor.toMeta) 0 0 0).take i).map
            (fun m => (m.mNumLeaves : ℤ))
          = ((descs.map GridDescriptor.toMeta).take i).map (fun m => (m.mNumLeaves : ℤ)) := by
        rw [List.map_take, cumAssign_map_nl, ← List.map_take]
      simp only [constructFromDescs] at hi ⊢
      rw [cumAssign_length] at hi
      rw [cumAssign_getD (descs.map GridDescriptor.toMeta) 0 0 0 i hi, hmapv, hmapl]
      simp
    · exact ⟨rfl, rfl⟩

/-- C2 witness: the invariant instantiated on the concrete reversing index
of the two-element batch. -/
theorem c2_witness : cumOK exIndexed ∧ totalsOK exIndexed :=
  c2_cumulative_prefix_sums_and_totals.1 exBatch2 [1, 0] exIndexed rfl

theorem resolveList_ok_nonneg (B : GridBatchImpl) :
    ∀ idx R, resolveList B idx = Except.ok R → ∀ r ∈ R, 0 ≤ r
  | [], R, h => by cases h; intro r hr; cases hr
  | a :: rest, R, h => by
      simp only [resolveList] at h
      cases hr : B.negativeToPositiveIndexWithRangecheck a with
      | error e => rw [hr, exceptBind_error] at h; cases h
      | ok bi =>
        rw [hr, exceptBind_ok] at h
        cases hrest : resolveList B rest with
        | error e => rw [hrest, exceptBind_error] at h; cases h
        | ok R2 =>
          rw [hrest, exceptBind_ok] at h
          cases h
          intro r hrm
          rcases List.mem_cons.mp hrm with heq | hmem
          · subst heq
            exact (resolve_ok_bounds B a r hr).1
          · exact resolveList_ok_nonneg B rest R2 hrest r hmem

theorem map_toNat_cast :
    ∀ (R : List ℤ), (∀ r ∈ R, 0 ≤ r) →
      (R.map Int.toNat).map (fun m : ℕ => (m : ℤ)) = R
  | [], _ => rfl
  | r :: rest, h => by
      simp only [List.map_cons, List.map_map]
      rw [Int.toNat_of_nonneg (h r (List.mem_cons_self r rest))]
      have := map_toNat_cast rest fun x hx => h x (List.mem_cons_of_mem r hx)
      simp only [List.map_map] at this
      rw [this]

theorem identityList_length (n : ℕ) : (identityList n).length = n := by
  simp only [identityList, List.length_map, List.length_range]

theorem identityList_map_toNat (n : ℕ) :
    (identityList n).map Int.toNat = List.range n := by
  unfold identityList
  rw [List.map_map,
    show (Int.toNat ∘ fun i : ℕ => (i : ℤ)) = id from funext fun i => Int.toNat_natCast i,
    List.map_id]

theorem list_ext_getD {α : Type} (l1 l2 : List α) (d : α)
    (hlen : l1.length = l2.length)
    (h : ∀ i, i < l1.length → l1.getD i d = l2.getD i d) : l1 = l2 := by
  apply List.ext_getElem hlen
  intro i h1 h2
  have hd := h i h1
  rw [List.getD_eq_getElem?_getD, List.getElem?_eq_getElem h1,
    List.getD_eq_getElem?_getD, List.getElem?_eq_getElem h2] at hd
  simpa using hd

theorem identityList_getD (n i : ℕ) (hi : i < n) :
    (identityList n).getD i 0 = (i : ℤ) := by
  have h1 : i < (identityList n).length := by rw [identityList_length]; exact hi
  rw [List.getD_eq_getElem?_getD, List.getElem?_eq_getElem h1]
  simp only [identityList, List.getElem_map, List.getElem_range, Option.getD_some]

/-- C3 (amended): indexing with the full identity list yields an instance
whose contiguity flag equals the source's; indexing with any *nonempty*
index list whose resolved form is not the identity run over the whole batch
(any permutation, gap, repeat, or shorter run) yields contiguity false; and
indexing with the *empty* list yields a fresh empty batch whose contiguity
flag is true regardless of the source's flag.  (`hE` records that an empty
batch carries a true contiguity flag, which holds of every batch the engine
can construct.) -/
theorem c3_contiguity_of_index (B : GridBatchImpl) (idx : List ℤ) (B' : GridBatchImpl)
    (R : List ℤ)
    (hE : B.mHostGridMetadata = [] → B.mBatchMetadata.mIsContiguous = true)
    (hok : B.indexInternal idx = Except.ok B')
    (hR : resolveList B idx = Except.ok R) :
    (idx = [] → B'.isContiguous = true) ∧
      (idx ≠ [] → B'.isContiguous =
        (B.isContiguous && decide (R = identityList B.mHostGridMetadata.length))) ∧
      (idx = identityList B.mHostGridMetadata.length →
        B'.isContiguous = B.isContiguous) := by
  rcases indexInternal_ok_elim B idx B' hok with ⟨hidx, hB'⟩ | ⟨hne, hnest, R2, hR2, hB'⟩
  · subst hB'
    refine ⟨fun _ => rfl, fun hnem => absurd hidx hnem, fun hid => ?_⟩
    rw [hidx] at hid
    have hn : B.mHostGridMetadata.length = 0 := by
      have hlen := congrArg List.length hid
      simpa [identityList_length] using hlen.symm
    have hBc := hE (List.length_eq_zero.mp hn)
    show (emptyGridBatchImpl B.device B.isMutable).isContiguous = B.isContiguous
    show true = B.mBatchMetadata.mIsContiguous
    rw [hBc]
  · rw [hR] at hR2
    cases hR2
    subst hB'
    have hnn : ∀ r ∈ R, 0 ≤ r := resolveList_ok_nonneg B idx R hR
    have key : (assembleIndexed B (pureLoop B (R.map Int.toNat) (initIndexState B))).isContiguous
        = (B.mBatchMetadata.mIsContiguous
            && decide (R = identityList B.mHostGridMetadata.length)) := by
      show ((pureLoop B (R.map Int.toNat) (initIndexState B)).isContiguous
          && decide (((pureLoop B (R.map Int.toNat) (initIndexState B)).count : ℤ)
            = B.batchSize)) = _
      rw [pureLoop_isContiguous, pureLoop_count]
      have hcnt : (initIndexState B).count = 0 := rfl
      have hic : (initIndexState B).isContiguous = B.mBatchMetadata.mIsContiguous := rfl
      rw [hcnt, hic, Nat.zero_add]
      by_cases h3 : R = identityList B.mHostGridMetadata.length
      · have hp1 : (R.map Int.toNat) = List.range' 0 (R.map Int.toNat).length := by
          rw [h3, identityList_map_toNat]
          simp [List.range_eq_range']
        have hp2 : (((R.map Int.toNat).length : ℕ) : ℤ) = B.batchSize := by
          rw [h3]
          simp [identityList_length, GridBatchImpl.batchSize]
        rw [decide_eq_true hp1, decide_eq_true hp2, decide_eq_true h3]
        simp
      · rw [decide_eq_false h3]
        by_cases h1 : (R.map Int.toNat) = List.range' 0 (R.map Int.toNat).length
        · by_cases h2 : (((R.map Int.toNat).length : ℕ) : ℤ) = B.batchSize
          · exfalso
            apply h3
            have hlen : (R.map Int.toNat).length = B.mHostGridMetadata.length := by
              have h2' := h2
              rw [GridBatchImpl.batchSize] at h2'
              exact_mod_cast h2'
            calc R = (R.map Int.toNat).map (fun m : ℕ => (m : ℤ)) :=
                  (map_toNat_cast R hnn).symm
              _ = (List.range' 0 (R.map Int.toNat).length).map (fun m : ℕ => (m : ℤ)) := by
                  rw [← h1]
              _ = identityList B.mHostGridMetadata.length := by
                  rw [← List.range_eq_range', hlen]
                  rfl
          · rw [decide_eq_false h2]
            simp
        · rw [decide_eq_false h1]
          simp
    refine ⟨fun h => absurd h hne, fun _ => key, fun hid => ?_⟩
    rw [show (assembleIndexed B (pureLoop B (R.map Int.toNat) (initIndexState B))).isContiguous
        = (B.mBatchMetadata.mIsContiguous
            && decide (R = identityList B.mHostGridMetadata.length)) from key]
    have hRid : R = identityList B.mHostGridMetadata.length := by
      refine list_ext_getD R (identityList B.mHostGridMetadata.length) 0 ?_ ?_
      · rw [resolveList_ok_length B idx R hR, hid]
      · intro i hi
        have hin : i < B.mHostGridMetadata.length := by
          rw [resolveList_ok_length B idx R hR, hid, identityList_length] at hi
          exact hi
        have h4 := resolveList_ok_getD B idx R hR i
          (by rw [← resolveList_ok_length B idx R hR]; exact hi)
        rw [hid, identityList_getD _ i hin] at h4
        have h5 : B.negativeToPositiveIndexWithRangecheck (i : ℤ) = Except.ok (i : ℤ) :=
          resolve_nonneg_lt B _ (Int.natCast_nonneg i)
            (by show (i : ℤ) < (B.mHostGridMetadata.length : ℤ); exact_mod_cast hin)
        rw [h5] at h4
        injection h4 with h6
        rw [identityList_getD _ i hin]
        exact h6.symm
    rw [decide_eq_true hRid]
    simp [GridBatchImpl.isContiguous]

/-- C3 counterexample: the empty index list is a gapped selection from the
one-element batch (it is not the identity run `[0]`), yet the claim's
required contiguity flag `false` is not produced — the code returns a fresh
empty batch whose contiguity flag is `true` (GridBatchImpl.h:137-139). -/
theorem c3_counterexample :
    contiguityFlagOf (exBatch1.indexInternal []) = some true ∧
      contiguityFlagOf (exBatch1.indexInternal []) ≠ some false := by
  constructor
  · rfl
  · intro h
    rw [show contiguityFlagOf (exBatch1.indexInternal []) = some true from rfl] at h
    simp at h

/-- C3 witness: the contiguity relation instantiated on the concrete
two-element batch indexed with the (valid, nonempty, non-identity) list
`[1, 0]`; the hypotheses are discharged by computation. -/
theorem c3_witness :
    exIndexed.isContiguous
      = (exBatch2.isContiguous
          && decide (exResolved = identityList exBatch2.mHostGridMetadata.length)) :=
  (c3_contiguity_of_index exBatch2 [1, 0] exIndexed exResolved
      (fun h => List.noConfusion h) rfl rfl).2.1
    (fun h => List.noConfusion h)

/-- C5: for every batch and per-element index `bi`, a negative `bi` resolves
to `batchSize + bi`; a resolved value inside `[0, batchSize)` is returned
unchanged, and a resolved value outside that range fails with an index
error.  Resolution is a pure function of the batch, so it has no other
effect. -/
theorem c5_negative_index_resolution (B : GridBatchImpl) (bi : ℤ) :
    (0 ≤ bi → bi < B.batchSize →
        B.negativeToPositiveIndexWithRangecheck bi = Except.ok bi) ∧
      (bi < 0 → 0 ≤ bi + B.batchSize →
        B.negativeToPositiveIndexWithRangecheck bi = Except.ok (bi + B.batchSize)) ∧
      ((bi + B.batchSize < 0 ∨ B.batchSize ≤ bi) →
        B.negativeToPositiveIndexWithRangecheck bi =
          Except.error (Err.indexError "Batch index is out of range for grid batch")) := by
  have hn : 0 ≤ B.batchSize := batchSize_nonneg B
  refine ⟨fun h0 hlt => resolve_nonneg_lt B bi h0 hlt, fun hneg hge => ?_, fun hout => ?_⟩
  · simp only [GridBatchImpl.negativeToPositiveIndexWithRangecheck]
    rw [if_pos hneg, if_pos ⟨hge, by omega⟩]
  · simp only [GridBatchImpl.negativeToPositiveIndexWithRangecheck]
    rcases hout with hlo | hhi
    · rw [if_pos (by omega : bi < 0), if_neg (by omega)]
    · rw [if_neg (by omega : ¬bi < 0), if_neg (by omega)]

/-- C5 witness: on the concrete two-element batch, index `-1` resolves to
`-1 + 2 = 1`. -/
theorem c5_witness :
    exBatch2.negativeToPositiveIndexWithRangecheck (-1) =
      Except.ok (-1 + exBatch2.batchSize) :=
  (c5_negative_index_resolution exBatch2 (-1)).2.1 (by decide) (by decide)

/-- C6 (amended): on an empty batch (no elements, empty storage buffer),
`totalVoxels()` returns 0 and every per-element query fails rather than
crashing — but the error class differs per query: the bounding-box query
fails its non-empty check with an invalid-argument-class error
("Empty grid"), while the per-element voxel count fails index resolution
with an *index* error, not an invalid-argument-class error. -/
theorem c6_empty_batch_queries (B : GridBatchImpl) (bi : ℤ)
    (hm : B.mHostGridMetadata = []) (hbuf : B.isEmpty = true) (ht : totalsOK B) :
    B.numVoxels bi =
        Except.error (Err.indexError "Batch index is out of range for grid batch") ∧
      B.bbox bi = Except.error (Err.checkError "Empty grid") ∧
      B.totalVoxels = 0 := by
  have hbs : B.batchSize = 0 := by simp [GridBatchImpl.batchSize, hm]
  refine ⟨?_, ?_, ?_⟩
  · rw [GridBatchImpl.numVoxels]
    have hres : B.negativeToPositiveIndexWithRangecheck bi =
        Except.error (Err.indexError "Batch index is out of range for grid batch") := by
      simp only [GridBatchImpl.negativeToPositiveIndexWithRangecheck, hbs]
      by_cases hbi : bi < 0
      · rw [if_pos hbi, if_neg (by omega)]
      · rw [if_neg hbi, if_neg (by omega)]
    rw [hres, exceptBind_error]
  · rw [GridBatchImpl.bbox]
    have hch : B.checkNonEmptyGrid = Except.error (Err.checkError "Empty grid") := by
      simp [GridBatchImpl.checkNonEmptyGrid, hbuf]
    rw [hch, exceptBind_error]
  · rw [GridBatchImpl.totalVoxels, ht.1, hm]
    simp

/-- C6 counterexample: on the concrete empty batch, the per-element voxel
count at index 0 fails with an *index* error, not with an
invalid-argument-class error as the claim states. -/
theorem c6_counterexample :
    (emptyGridBatchImpl cpuDevice false).numVoxels 0 =
        Except.error (Err.indexError "Batch index is out of range for grid batch") ∧
      isInvalidArgKind ((emptyGridBatchImpl cpuDevice false).numVoxels 0) = false :=
  ⟨rfl, rfl⟩

/-- C6 witness: the amended statement instantiated on the concrete empty
batch at index 0. -/
theorem c6_witness :
    (emptyGridBatchImpl cpuDevice false).numVoxels 0 =
        Except.error (Err.indexError "Batch index is out of range for grid batch") ∧
      (emptyGridBatchImpl cpuDevice false).bbox 0 =
        Except.error (Err.checkError "Empty grid") ∧
      (emptyGridBatchImpl cpuDevice false).totalVoxels = 0 :=
  c6_empty_batch_queries (emptyGridBatchImpl cpuDevice false) 0 rfl rfl ⟨rfl, rfl⟩

/-- C7: accessor construction fails on an empty batch for both the host and
the device variant, and the device variant additionally fails with the
device-mismatch error when the storage is not resident on a CUDA device. -/
theorem c7_accessor_construction_guards (B : GridBatchImpl) :
    (B.isEmpty = true →
      B.hostAccessor = Except.error (Err.checkError "Cannot access empty grid") ∧
        B.deviceAccessor = Except.error (Err.checkError "Cannot access empty grid")) ∧
      (B.isEmpty = false → B.device.isCuda = false →
        B.deviceAccessor =
          Except.error (Err.checkError "Cannot access device accessor on non-CUDA device")) := by
  constructor
  · intro he
    constructor
    · rw [GridBatchImpl.hostAccessor, if_pos he]
    · rw [GridBatchImpl.deviceAccessor, if_pos he]
  · intro he hc
    rw [GridBatchImpl.deviceAccessor, if_neg (by simp [he]), if_pos hc]

/-- C7 witness: both guard failures on concrete batches — the empty batch
for the empty-grid error, and the host-resident two-element batch for the
device-mismatch error. -/
theorem c7_witness :
    (emptyGridBatchImpl cpuDevice false).hostAccessor =
        Except.error (Err.checkError "Cannot access empty grid") ∧
      exBatch2.deviceAccessor =
        Except.error (Err.checkError "Cannot access device accessor on non-CUDA device") :=
  ⟨((c7_accessor_construction_guards (emptyGridBatchImpl cpuDevice false)).1 rfl).1,
    (c7_accessor_construction_guards exBatch2).2 rfl rfl⟩

/-- C8 (amended): `setDevice` with the buffer's current device is a no-op,
and on an empty buffer (both data pointers null) `setDevice` records only
the target device without allocating — provided a CUDA target carries a
device index; a CUDA target without an index is rejected with an error. -/
theorem c8_setDevice_noop_and_empty (buf : TorchDeviceBuffer) (d : TorchDevice) (b : Bool) :
    buf.setDevice buf.mDevice b = Except.ok buf ∧
      (buf.mCpuData = none → buf.mGpuData = none →
        (d.isCuda = true → d.hasIndex = true) →
        buf.setDevice d b = Except.ok { buf with mDevice := d }) := by
  constructor
  · rw [TorchDeviceBuffer.setDevice, if_pos rfl]
  · intro hc hg hcu
    by_cases hd : d = buf.mDevice
    · subst hd
      rw [TorchDeviceBuffer.setDevice, if_pos rfl]
    · rw [TorchDeviceBuffer.setDevice, if_neg hd, if_pos ⟨hc, hg⟩]
      have hni : ¬(d.isCuda = true ∧ d.hasIndex = false) := by
        rintro ⟨h1, h2⟩
        rw [hcu h1] at h2
        cases h2
      rw [if_neg hni]

/-- C8 counterexample: on the empty host buffer, `setDevice` towards a CUDA
device *without an index* fails with an error instead of recording the
target device, so the claim's unconditional "changes only the recorded
device field" fails at this input. -/
theorem c8_counterexample :
    TorchDeviceBuffer.setDevice exEmptyCpuBuffer cudaNoIndex true =
        Except.error (Err.checkError "Invalid CUDA device must specify device index") ∧
      TorchDeviceBuffer.setDevice exEmptyCpuBuffer cudaNoIndex true ≠
        Except.ok { exEmptyCpuBuffer with mDevice := cudaNoIndex } := by
  refine ⟨rfl, ?_⟩
  intro h
  rw [show TorchDeviceBuffer.setDevice exEmptyCpuBuffer cudaNoIndex true =
      Except.error (Err.checkError "Invalid CUDA device must specify device index")
    from rfl] at h
  cases h

/-- C8 witness: the amended statement instantiated on the empty host buffer
with the indexed CUDA target device 0. -/
theorem c8_witness :
    TorchDeviceBuffer.setDevice exEmptyCpuBuffer cuda0 true =
      Except.ok { exEmptyCpuBuffer with mDevice := cuda0 } :=
  (c8_setDevice_noop_and_empty exEmptyCpuBuffer cuda0 true).2 rfl rfl (fun _ => rfl)

/-- C9: for every in-range batch index, the dual bounding box equals the
primal bounding box with the same minimum corner and each coordinate of the
maximum corner incremented by one — on the engine and on the accessor. -/
theorem c9_dual_bbox_increments_max (B : GridBatchImpl) (bi : ℤ)
    (h0 : 0 ≤ bi) (hlt : bi < B.batchSize) (hne : B.isEmpty = false)
    (A : Accessor) (hA : B.hostAccessor = Except.ok A) :
    B.dualBbox bi =
        (B.bbox bi).map (fun bb => CoordBBox.mk bb.bmin (bb.bmax + Coord.mk 1 1 1)) ∧
      A.dualBbox bi =
        CoordBBox.mk (A.bbox bi).bmin ((A.bbox bi).bmax + Coord.mk 1 1 1) := by
  have hres : B.negativeToPositiveIndexWithRangecheck bi = Except.ok bi :=
    resolve_nonneg_lt B bi h0 hlt
  have hch : B.checkNonEmptyGrid = Except.ok () := by
    simp [GridBatchImpl.checkNonEmptyGrid, hne]
  constructor
  · rw [GridBatchImpl.dualBbox, hres, exceptBind_ok, GridBatchImpl.bbox, hch,
      exceptBind_ok, hres, exceptBind_ok]
    rfl
  · have hr : A.resolveIndex bi = bi := by
      rw [Accessor.resolveIndex, if_neg (not_lt.mpr h0)]
    simp only [Accessor.dualBbox, hr]

/-- C9 witness: the dual-box relation instantiated at element 1 of the
concrete two-element batch and its host accessor. -/
theorem c9_witness :
    exBatch2.dualBbox 1 =
        (exBatch2.bbox 1).map (fun bb => CoordBBox.mk bb.bmin (bb.bmax + Coord.mk 1 1 1)) ∧
      exAccessor.dualBbox 1 =
        CoordBBox.mk (exAccessor.bbox 1).bmin ((exAccessor.bbox 1).bmax + Coord.mk 1 1 1) :=
  c9_dual_bbox_increments_max exBatch2 1 (by decide) (by decide) rfl exAccessor rfl

/-- C10: on an immutable batch the enabled-voxel counting queries coincide
with the plain voxel counting queries, per element and batched. -/
theorem c10_enabled_equals_plain_when_immutable (g : GridBatch)
    (himm : g.is_mutable = false) :
    (∀ bi : ℤ, g.num_enabled_voxels_at bi = g.num_voxels_at bi) ∧
      g.num_enabled_voxels = g.num_voxels := by
  constructor
  · intro bi
    rw [GridBatch.num_enabled_voxels_at, if_pos himm]
  · rw [GridBatch.num_enabled_voxels, if_pos himm]

/-- C10 witness: the coincidence instantiated on the concrete immutable
batch wrapper at element 0 and for the batched query. -/
theorem c10_witness :
    exGridBatch.num_enabled_voxels_at 0 = exGridBatch.num_voxels_at 0 ∧
      exGridBatch.num_enabled_voxels = exGridBatch.num_voxels :=
  ⟨(c10_enabled_equals_plain_when_immutable exGridBatch rfl).1 0,
    (c10_enabled_equals_plain_when_immutable exGridBatch rfl).2⟩
